import Mathlib

/-!
# Verification of the dubai-restaurants backend

A shallow embedding, in Lean 4, of the request handlers of the
dubai-restaurants CRUD backend: the authentication middleware
(`src/middleware/auth.ts`), the login handler (`src/server.ts`),
and the venue routes (the router file mounting `POST /`, `GET /:id`,
`PUT /:id`, `DELETE /:id`), together with the SQL statements each
handler sends through the connection pool.

Request-body values are modelled as JavaScript runtime values
(`JSValue`) with JavaScript truthiness; the users and restaurants
tables are lists of rows; `pool.query` call sites are modelled both as
`Query` values (SQL text plus bound parameters) and as state
transformers on the table.  External effects that can fail
(`bcrypt.compare`, `jwt.verify`, a failing UPDATE) are parameters of
the handler functions.
-/

namespace DubaiRestaurants

/-- A JavaScript runtime value as it appears in a parsed JSON request
body.  `vibe` is an array of strings in the source (`string[]`), so
array values carry `List String`. -/
inductive JSValue where
  | undefined
  | null
  | bool (b : Bool)
  | num (q : Rat)
  | str (s : String)
  | arr (elems : List String)
  deriving Repr, DecidableEq

/-- JavaScript truthiness: `undefined`, `null`, `false`, `0`, and `""`
are falsy; every other value (including any array) is truthy. -/
def JSValue.truthy : JSValue → Bool
  | .undefined => false
  | .null => false
  | .bool b => b
  | .num q => q != 0
  | .str s => s != ""
  | .arr _ => true

/-- node-postgres sends a JavaScript `undefined` parameter as SQL
`NULL`; every other value is passed through. -/
def toSQLValue : JSValue → JSValue
  | .undefined => .null
  | v => v

/-- One `pool.query(text, values)` call: the SQL text and the bound
parameter list. -/
structure Query where
  sql : String
  params : List JSValue
  deriving Repr, DecidableEq

/-- The eleven venue fields destructured from `req.body` by the create
and update handlers.  A field absent from the request body is
`undefined`. -/
structure VenueFields where
  name : JSValue
  category : JSValue
  price_range : JSValue
  vibe : JSValue
  latitude : JSValue
  longitude : JSValue
  address : JSValue
  seating : JSValue
  is_licensed : JSValue
  has_shisha : JSValue
  google_place_id : JSValue
  deriving Repr, DecidableEq

/-! ## The SQL statements, verbatim from each `pool.query` call site -/

/-- `SELECT * FROM users WHERE email = $1` — login lookup. -/
def loginLookupQuery (email : JSValue) : Query :=
  { sql := "SELECT * FROM users WHERE email = $1"
    params := [email] }

/-- `UPDATE users SET last_login = CURRENT_TIMESTAMP WHERE id = $1` —
last-login refresh on successful login. -/
def lastLoginUpdateQuery (id : JSValue) : Query :=
  { sql := "UPDATE users SET last_login = CURRENT_TIMESTAMP WHERE id = $1"
    params := [id] }

/-- The INSERT issued by the router `POST /` create handler (twelve
parameters; `added_by` is the authenticated user's id). -/
def createRestaurantQuery (b : VenueFields) (userId : JSValue) : Query :=
  { sql := "INSERT INTO restaurants \n            (name, category, price_range, vibe, latitude, longitude, address, \n             seating, is_licensed, has_shisha, google_place_id, added_by)\n            VALUES ($1, $2, $3, $4, $5, $6, $7, $8, $9, $10, $11, $12)\n            RETURNING *"
    params := [b.name, b.category, b.price_range, b.vibe, b.latitude, b.longitude,
               b.address, b.seating, b.is_licensed, b.has_shisha, b.google_place_id,
               userId] }

/-- `SELECT * FROM restaurants WHERE id = $1` — `GET /:id`. -/
def getRestaurantQuery (id : JSValue) : Query :=
  { sql := "SELECT * FROM restaurants WHERE id = $1"
    params := [id] }

/-- The UPDATE issued by the `PUT /:id` handler (twelve parameters;
the last one is the route id). -/
def updateRestaurantQuery (b : VenueFields) (id : JSValue) : Query :=
  { sql := "UPDATE restaurants \n         SET name = $1, category = $2, price_range = $3, vibe = $4,\n             latitude = $5, longitude = $6, address = $7, seating = $8,\n             is_licensed = $9, has_shisha = $10, google_place_id = $11,\n             updated_at = CURRENT_TIMESTAMP\n         WHERE id = $12\n         RETURNING *"
    params := [b.name, b.category, b.price_range, b.vibe, b.latitude, b.longitude,
               b.address, b.seating, b.is_licensed, b.has_shisha, b.google_place_id,
               id] }

/-- `DELETE FROM restaurants WHERE id = $1` — `DELETE /:id`. -/
def deleteRestaurantQuery (id : JSValue) : Query :=
  { sql := "DELETE FROM restaurants WHERE id = $1"
    params := [id] }

/-- The existence check shared by the update and delete handlers. -/
def checkRestaurantQuery (id : JSValue) : Query :=
  { sql := "SELECT id FROM restaurants WHERE id = $1"
    params := [id] }

/-- The listing query of `GET /api/restaurants` (server.ts): a constant
string, no parameters. -/
def listRestaurantsQuery : Query :=
  { sql := "\n            SELECT \n                r.*,\n                u.name as added_by_user,\n                u2.name as modified_by_user\n            FROM restaurants r\n            LEFT JOIN users u ON r.added_by = u.id\n            LEFT JOIN users u2 ON r.last_modified_by = u2.id\n            ORDER BY r.created_at DESC\n        "
    params := [] }

/-! ## Authentication middleware (`src/middleware/auth.ts`) -/

/-- The decoded token payload `{id, email, role}` attached to the
request as `req.user`. -/
structure Claims where
  id : Nat
  email : String
  role : String
  deriving Repr, DecidableEq

/-- Split a character list at every space, keeping empty segments —
the semantics of JavaScript `String.prototype.split(' ')`. -/
def splitChars : List Char → List (List Char)
  | [] => [[]]
  | c :: cs =>
    if c = ' ' then [] :: splitChars cs
    else
      match splitChars cs with
      | [] => [[c]]
      | g :: gs => (c :: g) :: gs

/-- JavaScript `s.split(' ')`. -/
def jsSplitSpace (s : String) : List String :=
  (splitChars s.toList).map (fun cs => String.mk cs)

/-- `const token = authHeader && authHeader.split(' ')[1]` followed by
the falsy check `if (!token)`: a missing header, a header without a
second space-separated part, or an empty second part all yield no
token. -/
def extractToken : Option String → Option String
  | none => none
  | some h =>
    match (jsSplitSpace h).get? 1 with
    | none => none
    | some t => if t = "" then none else some t

/-- The outcome of the middleware: either it responds itself (401/403)
and the protected handler never runs, or it attaches the verified
claims to the request and calls `next()`. -/
inductive AuthOutcome where
  | respond (status : Nat) (error : String)
  | proceed (user : Claims)
  deriving Repr, DecidableEq

/-- `authenticateToken` from `src/middleware/auth.ts`.  `verify`
models `jwt.verify(token, JWT_SECRET, cb)`: it returns the decoded
claims, or `none` when the token is malformed, mis-signed or
expired. -/
def authenticateToken (verify : String → Option Claims) (authHeader : Option String) :
    AuthOutcome :=
  match extractToken authHeader with
  | none => .respond 401 "Authentication required"
  | some token =>
    match verify token with
    | none => .respond 403 "Invalid token"
    | some user => .proceed user

/-! ## Login (`POST /api/auth/login`, server.ts) -/

/-- A row of the `users` table. -/
structure UserRow where
  id : Nat
  email : String
  password_hash : String
  name : String
  role : String
  deriving Repr, DecidableEq

/-- `result.rows[0]` of `SELECT * FROM users WHERE email = $1`: the
first stored user whose email equals the supplied value (the supplied
value is a request-body `JSValue`; a non-string value matches no
row). -/
def firstUserByEmail (users : List UserRow) (email : JSValue) : Option UserRow :=
  users.find? (fun u => JSValue.str u.email == email)

/-- A token produced by `jwt.sign(payload, JWT_SECRET, {expiresIn})`:
shallowly, the signed payload together with the expiry option.
Decoding a well-formed token recovers exactly the signed claims. -/
structure Jwt where
  claims : Claims
  expiresIn : String
  deriving Repr, DecidableEq

/-- `jwt.sign({id, email, role}, JWT_SECRET, { expiresIn: '24h' })`. -/
def jwtSign (c : Claims) (expiry : String) : Jwt :=
  { claims := c, expiresIn := expiry }

/-- The claims a verifier recovers from a signed token. -/
def Jwt.decode (t : Jwt) : Claims :=
  t.claims

/-- The `user` object of the 200 login response:
`{ id, email, role, name }`. -/
structure UserView where
  id : Nat
  email : String
  role : String
  name : String
  deriving Repr, DecidableEq

/-- A login response body: either `{ error: ... }` or
`{ token, user }`. -/
inductive LoginBody where
  | err (error : String)
  | ok (token : Jwt) (user : UserView)
  deriving Repr, DecidableEq

/-- Every string a caller can read out of a login response body: the
error message, or the token's decoded claim strings and expiry
together with the user object's strings. -/
def LoginBody.strings : LoginBody → List String
  | .err e => [e]
  | .ok t u => [t.claims.email, t.claims.role, t.expiresIn, u.email, u.role, u.name]

/-- The `POST /api/auth/login` handler of server.ts.

* `compare` models `bcrypt.compare(password, user.password_hash)`;
* `updateThrows` models the awaited
  `UPDATE users SET last_login = CURRENT_TIMESTAMP WHERE id = $1`
  rejecting: the exception propagates to the handler's `catch`, which
  responds 500 `Server error during login`;
* the result is the HTTP status and the JSON body. -/
def login (users : List UserRow) (compare : JSValue → String → Bool)
    (updateThrows : Bool) (email password : JSValue) : Nat × LoginBody :=
  if !email.truthy || !password.truthy then
    (400, .err "Email and password required")
  else
    match firstUserByEmail users email with
    | none => (401, .err "Invalid credentials")
    | some user =>
      if !(compare password user.password_hash) then
        (401, .err "Invalid credentials")
      else if updateThrows then
        (500, .err "Server error during login")
      else
        (200, .ok (jwtSign { id := user.id, email := user.email, role := user.role } "24h")
          { id := user.id, email := user.email, role := user.role, name := user.name })

/-! ## Venue storage and routes (router file: `POST /`, `GET /:id`,
`PUT /:id`, `DELETE /:id`; plus server.ts `POST /api/restaurants`) -/

/-- A row of the `restaurants` table.  Columns absent from an INSERT's
column list take their schema defaults (`NULL` for
`last_modified_by` and `rating`, `CURRENT_TIMESTAMP` for the
timestamps, the next serial value for `id`). -/
structure VenueRow where
  id : Nat
  name : JSValue
  category : JSValue
  price_range : JSValue
  vibe : JSValue
  latitude : JSValue
  longitude : JSValue
  address : JSValue
  seating : JSValue
  is_licensed : JSValue
  has_shisha : JSValue
  google_place_id : JSValue
  rating : JSValue
  added_by : JSValue
  last_modified_by : JSValue
  created_at : Nat
  updated_at : Nat
  deriving Repr, DecidableEq

/-- The `restaurants` table: its rows, the next serial id, and the
current timestamp used for `CURRENT_TIMESTAMP`. -/
structure RestaurantsTable where
  rows : List VenueRow
  nextId : Nat
  now : Nat
  deriving Repr, DecidableEq

/-- The schema declares `google_place_id VARCHAR(255) UNIQUE`: an
INSERT conflicts exactly when the inserted value is non-NULL and some
stored row already holds it (SQL `NULL`s never conflict). -/
def gpidConflict (t : RestaurantsTable) (gpid : JSValue) : Bool :=
  toSQLValue gpid != JSValue.null
    && t.rows.any (fun r => r.google_place_id == toSQLValue gpid)

/-- Uniqueness check for an UPDATE of row `selfId`: a non-NULL new
value conflicts exactly when a **different** row already holds it. -/
def gpidConflictExcept (t : RestaurantsTable) (selfId : Nat) (gpid : JSValue) : Bool :=
  toSQLValue gpid != JSValue.null
    && t.rows.any (fun r => r.id != selfId && r.google_place_id == toSQLValue gpid)

/-- The `requiredFields` object of the router create handler, in its
source order: `{ name, category, latitude, longitude, address,
seating }`. -/
def requiredFields (b : VenueFields) : List (String × JSValue) :=
  [("name", b.name), ("category", b.category), ("latitude", b.latitude),
   ("longitude", b.longitude), ("address", b.address), ("seating", b.seating)]

/-- `Object.entries(requiredFields).filter(([_, value]) => !value)
.map(([key]) => key)`: the names of required fields whose supplied
value is **falsy** (absent, `null`, `0`, `""`, `false`, ...). -/
def missingFields (b : VenueFields) : List String :=
  ((requiredFields b).filter (fun p => !p.2.truthy)).map Prod.fst

/-- A venue-route response body. -/
inductive VenueBody where
  | missing (error : String) (fields : List String)
  | conflict (error : String) (detail : String)
  | err (error : String)
  | row (v : VenueRow)
  | noContent
  deriving Repr, DecidableEq

/-- The row built by the router create handler's INSERT (column list
`name ... google_place_id, added_by`): parameters pass through
node-postgres (`undefined` becomes `NULL`); `last_modified_by` and
`rating` are not in the column list and default to `NULL`. -/
def insertedRow (t : RestaurantsTable) (userId : Option Nat) (b : VenueFields) : VenueRow :=
  { id := t.nextId
    name := toSQLValue b.name
    category := toSQLValue b.category
    price_range := toSQLValue b.price_range
    vibe := toSQLValue b.vibe
    latitude := toSQLValue b.latitude
    longitude := toSQLValue b.longitude
    address := toSQLValue b.address
    seating := toSQLValue b.seating
    is_licensed := toSQLValue b.is_licensed
    has_shisha := toSQLValue b.has_shisha
    google_place_id := toSQLValue b.google_place_id
    rating := JSValue.null
    added_by := match userId with
      | none => JSValue.null
      | some i => JSValue.num (i : Rat)
    last_modified_by := JSValue.null
    created_at := t.now
    updated_at := t.now }

/-- The router `POST /` create handler: validate required fields by
truthiness (400 with the list of missing names, no INSERT); then
INSERT; a unique violation (`error.code === '23505'`) responds 409
`Restaurant already exists` with the violation detail and leaves the
table unchanged; otherwise 201 with the returned row.
`userId` is `(req as any).user?.id`. -/
def routerCreateRestaurant (t : RestaurantsTable) (userId : Option Nat) (b : VenueFields) :
    (Nat × VenueBody) × RestaurantsTable :=
  if (missingFields b).length > 0 then
    ((400, .missing "Missing required fields" (missingFields b)), t)
  else if gpidConflict t b.google_place_id then
    ((409, .conflict "Restaurant already exists" "duplicate google_place_id"), t)
  else
    let row := insertedRow t userId b
    ((201, .row row),
     { rows := t.rows ++ [row], nextId := t.nextId + 1, now := t.now })

/-- The row built by the server.ts `POST /api/restaurants` INSERT: its
column list ends `added_by, last_modified_by` with values
`($12, $12)`, so **both** attribution columns receive `req.user.id`. -/
def serverInsertedRow (t : RestaurantsTable) (userId : Nat) (b : VenueFields) : VenueRow :=
  { id := t.nextId
    name := toSQLValue b.name
    category := toSQLValue b.category
    price_range := toSQLValue b.price_range
    vibe := toSQLValue b.vibe
    latitude := toSQLValue b.latitude
    longitude := toSQLValue b.longitude
    address := toSQLValue b.address
    seating := toSQLValue b.seating
    is_licensed := toSQLValue b.is_licensed
    has_shisha := toSQLValue b.has_shisha
    google_place_id := toSQLValue b.google_place_id
    rating := JSValue.null
    added_by := JSValue.num (userId : Rat)
    last_modified_by := JSValue.num (userId : Rat)
    created_at := t.now
    updated_at := t.now }

/-- The server.ts `POST /api/restaurants` handler: no field
validation; INSERT with `added_by = last_modified_by = req.user.id`;
its `catch` has no 23505 branch, so any failure (including a unique
violation) responds 500 `Failed to add restaurant`. -/
def serverCreateRestaurant (t : RestaurantsTable) (userId : Nat) (b : VenueFields) :
    (Nat × VenueBody) × RestaurantsTable :=
  if gpidConflict t b.google_place_id then
    ((500, .err "Failed to add restaurant"), t)
  else
    let row := serverInsertedRow t userId b
    ((201, .row row),
     { rows := t.rows ++ [row], nextId := t.nextId + 1, now := t.now })

/-- `SELECT ... WHERE id = $1` row lookup. -/
def findRow (t : RestaurantsTable) (id : Nat) : Option VenueRow :=
  t.rows.find? (fun r => r.id == id)

/-- The `GET /:id` handler: 404 when no row matches, else 200 with the
row. -/
def routerGetRestaurant (t : RestaurantsTable) (id : Nat) : Nat × VenueBody :=
  match findRow t id with
  | none => (404, .err "Restaurant not found")
  | some r => (200, .row r)

/-- The row produced by the `PUT /:id` UPDATE: it SETs exactly the
eleven body fields and `updated_at = CURRENT_TIMESTAMP`; `id`,
`rating`, `added_by`, `last_modified_by` and `created_at` are not in
the SET list and keep their stored values. -/
def updatedRow (r : VenueRow) (b : VenueFields) (now : Nat) : VenueRow :=
  { id := r.id
    name := toSQLValue b.name
    category := toSQLValue b.category
    price_range := toSQLValue b.price_range
    vibe := toSQLValue b.vibe
    latitude := toSQLValue b.latitude
    longitude := toSQLValue b.longitude
    address := toSQLValue b.address
    seating := toSQLValue b.seating
    is_licensed := toSQLValue b.is_licensed
    has_shisha := toSQLValue b.has_shisha
    google_place_id := toSQLValue b.google_place_id
    rating := r.rating
    added_by := r.added_by
    last_modified_by := r.last_modified_by
    created_at := r.created_at
    updated_at := now }

/-- The `PUT /:id` handler: existence check (404 when absent), then
the UPDATE; a unique violation on `google_place_id` propagates to the
`catch` (500, table unchanged); otherwise 200 with the updated row. -/
def routerUpdateRestaurant (t : RestaurantsTable) (id : Nat) (b : VenueFields) :
    (Nat × VenueBody) × RestaurantsTable :=
  match findRow t id with
  | none => ((404, .err "Restaurant not found"), t)
  | some r =>
    if gpidConflictExcept t id b.google_place_id then
      ((500, .err "Failed to update restaurant"), t)
    else
      let r' := updatedRow r b t.now
      ((200, .row r'),
       { rows := t.rows.map (fun x => if x.id == id then r' else x)
         nextId := t.nextId
         now := t.now })

/-- The `DELETE /:id` handler: existence check (404 when absent), then
the DELETE and a 204 with no body. -/
def routerDeleteRestaurant (t : RestaurantsTable) (id : Nat) :
    (Nat × VenueBody) × RestaurantsTable :=
  match findRow t id with
  | none => ((404, .err "Restaurant not found"), t)
  | some _ =>
    ((204, .noContent),
     { rows := t.rows.filter (fun r => r.id != id), nextId := t.nextId, now := t.now })

/-! ## Concrete fixtures (used to instantiate the theorems below) -/

/-- Claims decoded from the fixture token. -/
def demoClaims : Claims :=
  { id := 1, email := "a@x.com", role := "admin" }

/-- A fixture verifier: accepts exactly the token `tok-good`. -/
def demoVerify : String → Option Claims :=
  fun t => if t = "tok-good" then some demoClaims else none

/-- A one-user fixture `users` table. -/
def demoUsers : List UserRow :=
  [{ id := 1, email := "a@x.com", password_hash := "hash1", name := "Admin User",
     role := "admin" }]

/-- A fixture for `bcrypt.compare`: the password `secret` matches the
stored hash `hash1` and nothing else matches anything. -/
def demoCompare : JSValue → String → Bool :=
  fun p h => p == JSValue.str "secret" && h == "hash1"

/-- A complete, all-truthy venue-create body. -/
def demoBody : VenueFields :=
  { name := .str "Zuma", category := .str "Restaurant", price_range := .str "$$$"
    vibe := .arr ["chic"], latitude := .num 25, longitude := .num 55
    address := .str "DIFC", seating := .str "Indoor", is_licensed := .bool true
    has_shisha := .bool false, google_place_id := .str "gp1" }

/-- `demoBody` with `latitude: 0` supplied explicitly. -/
def demoBodyLatZero : VenueFields :=
  { demoBody with latitude := .num 0 }

/-- `demoBody` with `name` absent from the request. -/
def demoBodyNoName : VenueFields :=
  { demoBody with name := .undefined }

/-- `demoBody` with a different venue but the same `google_place_id`. -/
def demoBodyDup : VenueFields :=
  { demoBody with name := .str "Zuma Copy", address := .str "DIFC 2" }

/-- An empty restaurants table. -/
def demoTable : RestaurantsTable :=
  { rows := [], nextId := 1, now := 100 }

/-- The row created by inserting `demoBody` into `demoTable` as user 7. -/
def demoRow : VenueRow :=
  insertedRow demoTable (some 7) demoBody

/-- The table after that insert, at a later timestamp. -/
def demoTable2 : RestaurantsTable :=
  { rows := [demoRow], nextId := 2, now := 200 }

/-! ## Theorems -/

/-- **C1.** Every storage operation (login lookup, last_login update,
venue create, getById, update, delete, list) passes user-supplied
values to the database only as bound parameters: for each operation
the SQL text sent to the pool is the same fixed string whatever the
request inputs are, and the listing query takes no parameters at
all — no request data is interpolated into SQL. -/
theorem storage_queries_parameterized :
    (∀ a b, (loginLookupQuery a).sql = (loginLookupQuery b).sql) ∧
    (∀ a b, (lastLoginUpdateQuery a).sql = (lastLoginUpdateQuery b).sql) ∧
    (∀ p q u v, (createRestaurantQuery p u).sql = (createRestaurantQuery q v).sql) ∧
    (∀ a b, (getRestaurantQuery a).sql = (getRestaurantQuery b).sql) ∧
    (∀ p q u v, (updateRestaurantQuery p u).sql = (updateRestaurantQuery q v).sql) ∧
    (∀ a b, (deleteRestaurantQuery a).sql = (deleteRestaurantQuery b).sql) ∧
    (∀ a b, (checkRestaurantQuery a).sql = (checkRestaurantQuery b).sql) ∧
    listRestaurantsQuery.params = [] :=
  ⟨fun _ _ => rfl, fun _ _ => rfl, fun _ _ _ _ => rfl, fun _ _ => rfl,
   fun _ _ _ _ => rfl, fun _ _ => rfl, fun _ _ => rfl, rfl⟩

/-- **C2.** For every request to a protected route: with no extracted
token the middleware responds 401 and never proceeds to the handler;
with a token that fails verification it responds 403 and never
proceeds; and it proceeds (running the protected handler with the
decoded claims) exactly when some extracted token verifies
successfully. -/
theorem protected_route_auth_gate (verify : String → Option Claims) (h : Option String) :
    (extractToken h = none →
      authenticateToken verify h = .respond 401 "Authentication required") ∧
    (∀ t, extractToken h = some t → verify t = none →
      authenticateToken verify h = .respond 403 "Invalid token") ∧
    (∀ t u, extractToken h = some t → verify t = some u →
      authenticateToken verify h = .proceed u) ∧
    (∀ u, authenticateToken verify h = .proceed u →
      ∃ t, extractToken h = some t ∧ verify t = some u) := by
  refine ⟨?_, ?_, ?_, ?_⟩
  · intro hE
    simp [authenticateToken, hE]
  · intro t ht hv
    simp [authenticateToken, ht, hv]
  · intro t u ht hv
    simp [authenticateToken, ht, hv]
  · intro u hp
    cases hE : extractToken h with
    | none => simp [authenticateToken, hE] at hp
    | some t =>
      cases hv : verify t with
      | none => simp [authenticateToken, hE, hv] at hp
      | some u' =>
        simp only [authenticateToken, hE, hv, AuthOutcome.proceed.injEq] at hp
        subst hp
        exact ⟨t, rfl, hv⟩

/-- Instantiation of `protected_route_auth_gate`: a missing header
responds 401, a bad bearer token responds 403, and the good bearer
token proceeds with the decoded claims. -/
theorem protected_route_auth_gate_witness :
    authenticateToken demoVerify none = .respond 401 "Authentication required" ∧
    authenticateToken demoVerify (some "Bearer bad") = .respond 403 "Invalid token" ∧
    authenticateToken demoVerify (some "Bearer tok-good") = .proceed demoClaims :=
  ⟨(protected_route_auth_gate demoVerify none).1 rfl,
   (protected_route_auth_gate demoVerify (some "Bearer bad")).2.1 "bad" (by decide) rfl,
   (protected_route_auth_gate demoVerify (some "Bearer tok-good")).2.2.1 "tok-good"
     demoClaims (by decide) rfl⟩

/-- **C3.** For every login request with both fields supplied whose
credentials are invalid — either the email matches no stored user, or
it matches a user whose stored hash fails the bcrypt comparison — the
response is the single status/body pair 401
`{ error: 'Invalid credentials' }`, so the two failure causes are
indistinguishable to the caller. -/
theorem login_invalid_credentials_uniform (users : List UserRow)
    (compare : JSValue → String → Bool) (updateThrows : Bool) (email password : JSValue)
    (he : email.truthy = true) (hp : password.truthy = true)
    (hinv : firstUserByEmail users email = none ∨
      ∃ u, firstUserByEmail users email = some u ∧ compare password u.password_hash = false) :
    login users compare updateThrows email password = (401, .err "Invalid credentials") := by
  rcases hinv with hnone | ⟨u, hu, hc⟩
  · simp [login, he, hp, hnone]
  · simp [login, he, hp, hu, hc]

/-- Instantiation of `login_invalid_credentials_uniform` at both
failure causes: an unknown email and a wrong password for a known
email produce the identical 401 response. -/
theorem login_invalid_credentials_uniform_witness :
    login demoUsers demoCompare false (.str "ghost@x.com") (.str "secret") =
      (401, .err "Invalid credentials") ∧
    login demoUsers demoCompare false (.str "a@x.com") (.str "wrong") =
      (401, .err "Invalid credentials") :=
  ⟨login_invalid_credentials_uniform demoUsers demoCompare false
      (.str "ghost@x.com") (.str "secret") (by decide) (by decide) (Or.inl (by decide)),
   login_invalid_credentials_uniform demoUsers demoCompare false
      (.str "a@x.com") (.str "wrong") (by decide) (by decide)
      (Or.inr ⟨{ id := 1, email := "a@x.com", password_hash := "hash1", name := "Admin User",
                 role := "admin" }, by decide, by decide⟩)⟩

/-- **C4.** For every login request with valid credentials (a stored
user found by email whose hash passes the bcrypt comparison, the
last-login update succeeding), the response is 200 with a signed token
whose decoded claims are exactly the stored user's `{id, email,
role}`, a user object of exactly `{id, email, role, name}`, and —
provided the stored hash does not coincide with one of those exposed
strings — `password_hash` appears nowhere among the strings of the
response body. -/
theorem login_success_response (users : List UserRow) (compare : JSValue → String → Bool)
    (email password : JSValue) (u : UserRow)
    (he : email.truthy = true) (hp : password.truthy = true)
    (hu : firstUserByEmail users email = some u)
    (hc : compare password u.password_hash = true) :
    login users compare false email password =
      (200, .ok (jwtSign { id := u.id, email := u.email, role := u.role } "24h")
        { id := u.id, email := u.email, role := u.role, name := u.name }) ∧
    (jwtSign { id := u.id, email := u.email, role := u.role } "24h").decode =
      { id := u.id, email := u.email, role := u.role } ∧
    (u.password_hash ∉ ([u.email, u.role, u.name, "24h"] : List String) →
      u.password_hash ∉ (login users compare false email password).2.strings) := by
  have hmain : login users compare false email password =
      (200, .ok (jwtSign { id := u.id, email := u.email, role := u.role } "24h")
        { id := u.id, email := u.email, role := u.role, name := u.name }) := by
    simp [login, he, hp, hu, hc]
  refine ⟨hmain, rfl, ?_⟩
  intro hno hmem
  rw [hmain] at hmem
  simp only [LoginBody.strings, jwtSign, List.mem_cons, List.not_mem_nil, or_false] at hmem
  simp only [List.mem_cons, List.not_mem_nil, or_false, not_or] at hno
  rcases hmem with h | h | h | h | h | h <;> simp_all

/-- Instantiation of `login_success_response` at the fixture user:
the 200 body carries the claims and user view of the stored user, and
`hash1` is not among the response strings. -/
theorem login_success_response_witness :
    login demoUsers demoCompare false (.str "a@x.com") (.str "secret") =
      (200, .ok (jwtSign { id := 1, email := "a@x.com", role := "admin" } "24h")
        { id := 1, email := "a@x.com", role := "admin", name := "Admin User" }) ∧
    "hash1" ∉ (login demoUsers demoCompare false (.str "a@x.com") (.str "secret")).2.strings :=
  ⟨(login_success_response demoUsers demoCompare (.str "a@x.com") (.str "secret")
      { id := 1, email := "a@x.com", password_hash := "hash1", name := "Admin User",
        role := "admin" } (by decide) (by decide) (by decide) (by decide)).1,
   (login_success_response demoUsers demoCompare (.str "a@x.com") (.str "secret")
      { id := 1, email := "a@x.com", password_hash := "hash1", name := "Admin User",
        role := "admin" } (by decide) (by decide) (by decide) (by decide)).2.2 (by decide)⟩

/-- **C5 (counterexample to the claim as stated).** With valid
credentials but a failing `last_login` UPDATE, the login handler does
**not** return the 200 `{token, user}` response: the exception reaches
the handler's `catch`, which responds 500
`Server error during login`. -/
theorem login_update_failure_counterexample :
    login demoUsers demoCompare true (.str "a@x.com") (.str "secret") =
      (500, .err "Server error during login") ∧
    (login demoUsers demoCompare true (.str "a@x.com") (.str "secret")).1 ≠ 200 := by
  decide

/-- **C5 (amended).** The `last_login` update is **not** best-effort:
it is awaited inside the handler's `try` block, so whenever
credentials are valid but the UPDATE fails, login responds 500
`Server error during login` and issues no token. -/
theorem login_update_failure_responds_500 (users : List UserRow)
    (compare : JSValue → String → Bool) (email password : JSValue) (u : UserRow)
    (he : email.truthy = true) (hp : password.truthy = true)
    (hu : firstUserByEmail users email = some u)
    (hc : compare password u.password_hash = true) :
    login users compare true email password = (500, .err "Server error during login") := by
  simp [login, he, hp, hu, hc]

/-- Instantiation of `login_update_failure_responds_500` at the
fixture user. -/
theorem login_update_failure_responds_500_witness :
    login demoUsers demoCompare true (.str "a@x.com") (.str "secret") =
      (500, .err "Server error during login") :=
  login_update_failure_responds_500 demoUsers demoCompare (.str "a@x.com") (.str "secret")
    { id := 1, email := "a@x.com", password_hash := "hash1", name := "Admin User",
      role := "admin" } (by decide) (by decide) (by decide) (by decide)

/-- **C6.** For every create payload in which any of the six required
fields `{name, category, latitude, longitude, address, seating}` is
missing (falsy), the router create handler responds 400 with a body
enumerating exactly the names of the missing required fields, and the
table is unchanged (no INSERT is performed). -/
theorem create_missing_fields_rejected (t : RestaurantsTable) (userId : Option Nat)
    (b : VenueFields) (h : missingFields b ≠ []) :
    routerCreateRestaurant t userId b =
      ((400, .missing "Missing required fields" (missingFields b)), t) ∧
    ∀ f, f ∈ missingFields b ↔ ∃ v, (f, v) ∈ requiredFields b ∧ v.truthy = false := by
  constructor
  · have hl : 0 < (missingFields b).length := List.length_pos.mpr h
    simp [routerCreateRestaurant, hl]
  · intro f
    simp only [missingFields, List.mem_map, List.mem_filter, Bool.not_eq_eq_eq_not,
      Bool.not_true]
    constructor
    · rintro ⟨⟨f', v⟩, ⟨hmem, hfalsy⟩, rfl⟩
      exact ⟨v, hmem, hfalsy⟩
    · rintro ⟨v, hmem, hfalsy⟩
      exact ⟨(f, v), ⟨hmem, hfalsy⟩, rfl⟩

/-- Instantiation of `create_missing_fields_rejected`: a payload
without `name` is rejected with 400 listing exactly `["name"]` and no
row is inserted. -/
theorem create_missing_fields_rejected_witness :
    routerCreateRestaurant demoTable (some 7) demoBodyNoName =
      ((400, .missing "Missing required fields" (missingFields demoBodyNoName)), demoTable) ∧
    missingFields demoBodyNoName = ["name"] :=
  ⟨(create_missing_fields_rejected demoTable (some 7) demoBodyNoName (by decide)).1,
   by decide⟩

/-- **C7.** If some stored venue already holds a non-null
`google_place_id` and a second create supplies the same value (with
all required fields present), the create responds 409
`Restaurant already exists` with a distinguishing detail, and the
table — in particular the first venue's row — is left exactly as it
was. -/
theorem create_duplicate_gpid_conflict (t : RestaurantsTable) (userId : Option Nat)
    (b : VenueFields) (r : VenueRow) (g : String)
    (hmem : r ∈ t.rows) (hr : r.google_place_id = .str g) (hb : b.google_place_id = .str g)
    (hval : missingFields b = []) :
    routerCreateRestaurant t userId b =
      ((409, .conflict "Restaurant already exists" "duplicate google_place_id"), t) := by
  have hconf : gpidConflict t b.google_place_id = true := by
    simp only [gpidConflict, hb, toSQLValue, Bool.and_eq_true, List.any_eq_true]
    exact ⟨by simp [bne_iff_ne], r, hmem, by simp [hr]⟩
  simp [routerCreateRestaurant, hval, hconf]

/-- Instantiation of `create_duplicate_gpid_conflict`: inserting a
second venue with `google_place_id` `gp1` into the table already
holding `demoRow` responds 409 and leaves the table unchanged. -/
theorem create_duplicate_gpid_conflict_witness :
    routerCreateRestaurant demoTable2 (some 8) demoBodyDup =
      ((409, .conflict "Restaurant already exists" "duplicate google_place_id"),
       demoTable2) :=
  create_duplicate_gpid_conflict demoTable2 (some 8) demoBodyDup demoRow "gp1"
    (by decide) (by decide) (by decide) (by decide)

/-- **C8 (counterexample to the claim as stated).** A successful
create through the router handler (the `POST /` of the venue router)
by authenticated actor 7 inserts a row whose `added_by` is 7 but whose
`last_modified_by` is NULL — the INSERT's column list does not include
`last_modified_by`, so it is *not* set to the actor. -/
theorem create_attribution_counterexample :
    (routerCreateRestaurant demoTable (some 7) demoBody).1.1 = 201 ∧
    ((routerCreateRestaurant demoTable (some 7) demoBody).2.rows.map
        (fun r => (r.added_by, r.last_modified_by))) =
      [(JSValue.num 7, JSValue.null)] ∧
    JSValue.null ≠ JSValue.num 7 := by
  decide

/-- **C8 (amended).** Attribution depends on which create handler
runs: the server.ts `POST /api/restaurants` handler inserts a row with
`added_by = last_modified_by = actorId`, while the router `POST /`
handler inserts a row with `added_by = actorId` and `last_modified_by`
NULL. -/
theorem create_attribution_by_handler (t : RestaurantsTable) (uid : Nat) (b : VenueFields)
    (hnoconf : gpidConflict t b.google_place_id = false)
    (hval : missingFields b = []) :
    serverCreateRestaurant t uid b =
      ((201, .row (serverInsertedRow t uid b)),
       { rows := t.rows ++ [serverInsertedRow t uid b], nextId := t.nextId + 1,
         now := t.now }) ∧
    (serverInsertedRow t uid b).added_by = JSValue.num (uid : Rat) ∧
    (serverInsertedRow t uid b).last_modified_by = JSValue.num (uid : Rat) ∧
    routerCreateRestaurant t (some uid) b =
      ((201, .row (insertedRow t (some uid) b)),
       { rows := t.rows ++ [insertedRow t (some uid) b], nextId := t.nextId + 1,
         now := t.now }) ∧
    (insertedRow t (some uid) b).added_by = JSValue.num (uid : Rat) ∧
    (insertedRow t (some uid) b).last_modified_by = JSValue.null := by
  refine ⟨?_, rfl, rfl, ?_, rfl, rfl⟩
  · simp [serverCreateRestaurant, hnoconf]
  · simp [routerCreateRestaurant, hval, hnoconf]

/-- Instantiation of `create_attribution_by_handler` at the fixture
body on an empty table as actor 7. -/
theorem create_attribution_by_handler_witness :
    serverCreateRestaurant demoTable 7 demoBody =
      ((201, .row (serverInsertedRow demoTable 7 demoBody)),
       { rows := demoTable.rows ++ [serverInsertedRow demoTable 7 demoBody],
         nextId := demoTable.nextId + 1, now := demoTable.now }) ∧
    (serverInsertedRow demoTable 7 demoBody).added_by = JSValue.num (7 : Rat) ∧
    (serverInsertedRow demoTable 7 demoBody).last_modified_by = JSValue.num (7 : Rat) ∧
    routerCreateRestaurant demoTable (some 7) demoBody =
      ((201, .row (insertedRow demoTable (some 7) demoBody)),
       { rows := demoTable.rows ++ [insertedRow demoTable (some 7) demoBody],
         nextId := demoTable.nextId + 1, now := demoTable.now }) ∧
    (insertedRow demoTable (some 7) demoBody).added_by = JSValue.num (7 : Rat) ∧
    (insertedRow demoTable (some 7) demoBody).last_modified_by = JSValue.null :=
  create_attribution_by_handler demoTable 7 demoBody (by decide) (by decide)

/-- **C9.** The required-field check tests by JavaScript truthiness:
a payload supplying `latitude` or `longitude` as the number `0` or the
empty string — a value that is present but falsy — is treated as
missing, so the create responds 400 (enumerating that coordinate
among the missing fields) and inserts nothing. -/
theorem create_truthiness_zero_rejected (t : RestaurantsTable) (userId : Option Nat)
    (b : VenueFields)
    (h : b.latitude = .num 0 ∨ b.latitude = .str "" ∨
         b.longitude = .num 0 ∨ b.longitude = .str "") :
    (routerCreateRestaurant t userId b).1.1 = 400 ∧
    (routerCreateRestaurant t userId b).2 = t ∧
    ((b.latitude = .num 0 ∨ b.latitude = .str "") → "latitude" ∈ missingFields b) ∧
    ((b.longitude = .num 0 ∨ b.longitude = .str "") → "longitude" ∈ missingFields b) := by
  have hmemOf : ∀ f v, (f, v) ∈ requiredFields b → v.truthy = false →
      f ∈ missingFields b := by
    intro f v hmem hfalsy
    simp only [missingFields, List.mem_map, List.mem_filter]
    exact ⟨(f, v), ⟨hmem, by simp [hfalsy]⟩, rfl⟩
  have hlat : (b.latitude = .num 0 ∨ b.latitude = .str "") → "latitude" ∈ missingFields b := by
    rintro (h0 | h0) <;>
      exact hmemOf "latitude" b.latitude (by simp [requiredFields]) (by simp [h0, JSValue.truthy])
  have hlng : (b.longitude = .num 0 ∨ b.longitude = .str "") →
      "longitude" ∈ missingFields b := by
    rintro (h0 | h0) <;>
      exact hmemOf "longitude" b.longitude (by simp [requiredFields]) (by simp [h0, JSValue.truthy])
  have hne : missingFields b ≠ [] := by
    rcases h with h0 | h0 | h0 | h0
    · exact List.ne_nil_of_mem (hlat (Or.inl h0))
    · exact List.ne_nil_of_mem (hlat (Or.inr h0))
    · exact List.ne_nil_of_mem (hlng (Or.inl h0))
    · exact List.ne_nil_of_mem (hlng (Or.inr h0))
  have hl : 0 < (missingFields b).length := List.length_pos.mpr hne
  refine ⟨?_, ?_, hlat, hlng⟩ <;> simp [routerCreateRestaurant, hl]

/-- Instantiation of `create_truthiness_zero_rejected`: a payload
supplying `latitude: 0` (all other fields present and truthy) is
rejected with 400 and `latitude` is reported missing. -/
theorem create_truthiness_zero_rejected_witness :
    (routerCreateRestaurant demoTable (some 7) demoBodyLatZero).1.1 = 400 ∧
    (routerCreateRestaurant demoTable (some 7) demoBodyLatZero).2 = demoTable ∧
    "latitude" ∈ missingFields demoBodyLatZero ∧
    demoBodyLatZero.latitude ≠ JSValue.undefined :=
  ⟨(create_truthiness_zero_rejected demoTable (some 7) demoBodyLatZero
      (Or.inl (by decide))).1,
   (create_truthiness_zero_rejected demoTable (some 7) demoBodyLatZero
      (Or.inl (by decide))).2.1,
   (create_truthiness_zero_rejected demoTable (some 7) demoBodyLatZero
      (Or.inl (by decide))).2.2.1 (Or.inl (by decide)),
   by decide⟩

/-- **C10.** For every update of an existing id that the storage
accepts, only the eleven mutable columns and `updated_at` are
written: the stored row's `id`, `rating`, `added_by`,
`last_modified_by` and `created_at` are carried over unchanged (in
particular `last_modified_by` is not set to the updating actor —
the handler never touches it), the eleven body fields and
`updated_at = CURRENT_TIMESTAMP` are the only columns set, and every
other row of the table is left as it was. -/
theorem update_writes_only_mutable_columns (t : RestaurantsTable) (id : Nat)
    (b : VenueFields) (r : VenueRow)
    (hfind : findRow t id = some r)
    (hnoconf : gpidConflictExcept t id b.google_place_id = false) :
    routerUpdateRestaurant t id b =
      ((200, .row (updatedRow r b t.now)),
       { rows := t.rows.map (fun x => if x.id == id then updatedRow r b t.now else x)
         nextId := t.nextId
         now := t.now }) ∧
    (updatedRow r b t.now).id = r.id ∧
    (updatedRow r b t.now).rating = r.rating ∧
    (updatedRow r b t.now).added_by = r.added_by ∧
    (updatedRow r b t.now).last_modified_by = r.last_modified_by ∧
    (updatedRow r b t.now).created_at = r.created_at ∧
    (updatedRow r b t.now).name = toSQLValue b.name ∧
    (updatedRow r b t.now).category = toSQLValue b.category ∧
    (updatedRow r b t.now).price_range = toSQLValue b.price_range ∧
    (updatedRow r b t.now).vibe = toSQLValue b.vibe ∧
    (updatedRow r b t.now).latitude = toSQLValue b.latitude ∧
    (updatedRow r b t.now).longitude = toSQLValue b.longitude ∧
    (updatedRow r b t.now).address = toSQLValue b.address ∧
    (updatedRow r b t.now).seating = toSQLValue b.seating ∧
    (updatedRow r b t.now).is_licensed = toSQLValue b.is_licensed ∧
    (updatedRow r b t.now).has_shisha = toSQLValue b.has_shisha ∧
    (updatedRow r b t.now).google_place_id = toSQLValue b.google_place_id ∧
    (updatedRow r b t.now).updated_at = t.now ∧
    ∀ x ∈ t.rows, x.id ≠ id → x ∈ (routerUpdateRestaurant t id b).2.rows := by
  have hmain : routerUpdateRestaurant t id b =
      ((200, .row (updatedRow r b t.now)),
       { rows := t.rows.map (fun x => if x.id == id then updatedRow r b t.now else x)
         nextId := t.nextId
         now := t.now }) := by
    simp [routerUpdateRestaurant, hfind, hnoconf]
  refine ⟨hmain, rfl, rfl, rfl, rfl, rfl, rfl, rfl, rfl, rfl, rfl, rfl, rfl, rfl, rfl,
    rfl, rfl, rfl, ?_⟩
  intro x hx hne
  rw [hmain]
  simp only [List.mem_map]
  exact ⟨x, hx, by simp [hne]⟩

/-- Instantiation of `update_writes_only_mutable_columns`: updating
the stored fixture row keeps its attribution and creation data while
replacing the mutable fields. -/
theorem update_writes_only_mutable_columns_witness :
    routerUpdateRestaurant demoTable2 1 demoBodyDup =
      ((200, .row (updatedRow demoRow demoBodyDup demoTable2.now)),
       { rows := demoTable2.rows.map
           (fun x => if x.id == 1 then updatedRow demoRow demoBodyDup demoTable2.now else x)
         nextId := demoTable2.nextId
         now := demoTable2.now }) ∧
    (updatedRow demoRow demoBodyDup demoTable2.now).last_modified_by =
      demoRow.last_modified_by ∧
    (updatedRow demoRow demoBodyDup demoTable2.now).created_at = demoRow.created_at :=
  ⟨(update_writes_only_mutable_columns demoTable2 1 demoBodyDup demoRow
      (by decide) (by decide)).1,
   (update_writes_only_mutable_columns demoTable2 1 demoBodyDup demoRow
      (by decide) (by decide)).2.2.2.2.1,
   (update_writes_only_mutable_columns demoTable2 1 demoBodyDup demoRow
      (by decide) (by decide)).2.2.2.2.2.1⟩

end DubaiRestaurants
